import Mathlib

/-!
Shallow embedding of the RFP document-shredding pipeline
(`document_shredder.py`): file-extension classification, per-file
encoding into multimodal request parts, markdown-fence stripping of the
raw service response, and the defaulting pass that normalizes the parsed
JSON result.  External collaborators (object storage download, the
generative extraction service, `python-docx` text extraction, and the
JSON parser) are passed in as function parameters, mirroring the
module's use of them as opaque I/O.
-/

namespace DocumentShredder

/-- Raw file bytes, modelled as a list of byte values. -/
abbrev ByteSeq := List Nat

/-- JSON values as produced by `json.loads`. -/
inductive Json where
  | null : Json
  | bool (b : Bool) : Json
  | num (n : Int) : Json
  | str (s : String) : Json
  | arr (xs : List Json) : Json
  | obj (fields : List (String × Json)) : Json

/-- Python `d.get(k)` on an ordered dict modelled as an assoc list:
first binding wins, `none` when absent. -/
def pyGet {α : Type} (fs : List (String × α)) (k : String) : Option α :=
  match fs with
  | [] => none
  | (k', v) :: rest => if k' == k then some v else pyGet rest k

/-- Python `d[k] = v` on an ordered dict: replace in place when the key
exists (insertion order kept), append otherwise. -/
def setKey (fs : List (String × Json)) (k : String) (v : Json) :
    List (String × Json) :=
  match fs with
  | [] => [(k, v)]
  | (k', v') :: rest =>
    if k' == k then (k', v) :: rest else (k', v') :: setKey rest k v

/-- `d.get(k)` where an absent key behaves as Python `None`. -/
def jget (fs : List (String × Json)) (k : String) : Json :=
  (pyGet fs k).getD Json.null

/-- Python truth-value testing (`not x`) on a JSON value: `None`,
`False`, `0`, `""`, `[]` and the empty dict are falsy. -/
def falsy : Json → Bool
  | Json.null => true
  | Json.bool b => !b
  | Json.num n => n == 0
  | Json.str s => s == ""
  | Json.arr xs => xs.isEmpty
  | Json.obj fs => fs.isEmpty

/-! ### Filename classification (`call_gemini_for_shredding`, the
extension handling of its per-file loop) -/

/-- Mime table for Gemini-supported formats (`mime_mapping`). -/
def mime_mapping : List (String × String) :=
  [("pdf", "application/pdf"),
   ("txt", "text/plain"),
   ("csv", "text/csv"),
   ("json", "application/json"),
   ("png", "image/png"),
   ("jpg", "image/jpeg"),
   ("jpeg", "image/jpeg"),
   ("gif", "image/gif"),
   ("webp", "image/webp")]

/-- Extensions routed to text extraction (`text_extraction_extensions`). -/
def text_extraction_extensions : List String := ["doc", "docx"]

/-- Index of the last occurrence of `c`, `-1` when absent
(Python `str.rfind`). -/
def rfindAux (c : Char) : List Char → Int → Int → Int
  | [], _, acc => acc
  | x :: xs, i, acc => rfindAux c xs (i + 1) (if x == c then i else acc)

/-- Python `p.rfind(c)`. -/
def rfind (c : Char) (cs : List Char) : Int :=
  rfindAux c cs 0 (-1)

/-- The extension part of `os.path.splitext` (posix rules): the suffix
from the last dot, provided that dot lies after the last `/` and is not
part of a run of leading dots of the basename. -/
def splitext_ext (p : List Char) : List Char :=
  let sepIndex := rfind '/' p
  let dotIndex := rfind '.' p
  if sepIndex < dotIndex then
    let leadingRun := (p.take dotIndex.toNat).drop (sepIndex + 1).toNat
    if leadingRun.any (fun ch => ch != '.') then p.drop dotIndex.toNat
    else []
  else []

/-- `os.path.splitext(filename)[1].lower().lstrip('.')`. -/
def file_ext (filename : String) : String :=
  String.mk (((splitext_ext filename.data).map Char.toLower).dropWhile
    (fun ch => ch == '.'))

/-- The three encoding strategies the per-file loop distinguishes. -/
inductive DocClass where
  | nativeUpload (mime : String) : DocClass
  | textExtractRequired : DocClass
  | unsupported : DocClass
deriving DecidableEq, Repr

/-- The classification decision of the per-file loop: word-processor
extensions need text extraction; extensions in the mime table upload
natively; everything else falls to the `application/octet-stream`
default and is skipped. -/
def classify_filename (filename : String) : DocClass :=
  let ext := file_ext filename
  if text_extraction_extensions.contains ext then
    DocClass.textExtractRequired
  else
    match pyGet mime_mapping ext with
    | some m => DocClass.nativeUpload m
    | none => DocClass.unsupported

/-! ### Per-file encoding into request parts -/

/-- One part of the multimodal request (`Part.from_text` /
`Part.from_data`). -/
inductive GPart where
  | text (s : String) : GPart
  | data (bytes : ByteSeq) (mime : String) : GPart
deriving DecidableEq, Repr

/-- Parts appended to the request for one file, plus the log lines the
loop body prints for it. -/
structure EncodeOut where
  parts : List GPart
  logs : List String
deriving DecidableEq, Repr

def doc_header (filename text : String) : String :=
  "\n\n--- Document: " ++ filename ++ " ---\n\n" ++ text

def doc_placeholder (filename : String) : String :=
  "\n\n--- Document: " ++ filename ++
    " (Unable to process .doc format - please convert to .docx or .pdf) ---\n\n"

def end_marker (filename : String) : String :=
  "\n\n--- End of document: " ++ filename ++ " ---\n\n"

def converted_message (filename : String) (n : Nat) : String :=
  s!"✅ Converted {filename} to text ({n} chars)"

def extract_failed_message (filename e : String) : String :=
  s!"⚠️ Could not extract text from {filename}: {e}"

def doc_not_supported_message (filename : String) : String :=
  s!"⚠️ .doc format not supported. Please convert {filename} to .docx or .pdf"

def unsupported_skip_message (filename ext : String) : String :=
  s!"⚠️ Unsupported file type: {filename} ({ext}). Skipping."

def added_message (filename mime : String) (n : Nat) : String :=
  s!"✅ Added {filename} to multimodal request ({mime}, {n} bytes)"

/-- The body of the per-file loop of `call_gemini_for_shredding`.
`extract_docx` is the `extract_text_from_docx` collaborator (an
`Except.error` stands for a raised exception).  A failed `.docx`
extraction falls through to the mime lookup, where `docx` resolves to
the `application/octet-stream` default and the file is skipped. -/
def encode_file (extract_docx : ByteSeq → Except String String)
    (file_bytes : ByteSeq) (filename : String) : EncodeOut :=
  let ext := file_ext filename
  let uploadBranch : List String → EncodeOut := fun logs0 =>
    let mime_type := (pyGet mime_mapping ext).getD "application/octet-stream"
    if mime_type == "application/octet-stream" then
      { parts := [], logs := logs0 ++ [unsupported_skip_message filename ext] }
    else
      { parts := [GPart.data file_bytes mime_type,
                  GPart.text (end_marker filename)],
        logs := logs0 ++ [added_message filename mime_type file_bytes.length] }
  if text_extraction_extensions.contains ext then
    if ext == "docx" then
      match extract_docx file_bytes with
      | Except.ok t =>
        { parts := [GPart.text (doc_header filename t)],
          logs := [converted_message filename t.length] }
      | Except.error e => uploadBranch [extract_failed_message filename e]
    else
      { parts := [GPart.text (doc_placeholder filename)],
        logs := [doc_not_supported_message filename] }
  else
    uploadBranch []

/-- The complete parts list of the single Gemini request: the prompt
text first, then every file's encoded parts in file order. -/
def build_request (prompt : String)
    (extract_docx : ByteSeq → Except String String)
    (files_data : List (ByteSeq × String)) : List GPart :=
  GPart.text prompt ::
    files_data.flatMap (fun fd => (encode_file extract_docx fd.1 fd.2).parts)

/-! ### Markdown-fence stripping of the raw response text -/

/-- Python whitespace characters stripped by `str.strip()` (ASCII
range). -/
def is_py_space (c : Char) : Bool :=
  c == ' ' || c == '\t' || c == '\n' || c == '\r' || c == '\x0b' || c == '\x0c'

/-- Python `str.strip()`. -/
def pyStripL (cs : List Char) : List Char :=
  ((cs.dropWhile is_py_space).reverse.dropWhile is_py_space).reverse

/-- Python `str.startswith`. -/
def startsWithL : List Char → List Char → Bool
  | [], _ => true
  | _ :: _, [] => false
  | p :: ps, c :: cs => p == c && startsWithL ps cs

/-- Python `str.endswith`. -/
def endsWithL (suf s : List Char) : Bool :=
  startsWithL suf.reverse s.reverse

def fence_json : List Char := "```json".data

def fence3 : List Char := "```".data

/-- `if response_text.startswith('```json'): response_text = response_text[7:]`. -/
def strip_lead_json (t : List Char) : List Char :=
  if startsWithL fence_json t then t.drop 7 else t

/-- `if response_text.startswith('```'): response_text = response_text[3:]`. -/
def strip_lead3 (t : List Char) : List Char :=
  if startsWithL fence3 t then t.drop 3 else t

/-- `if response_text.endswith('```'): response_text = response_text[:-3]`. -/
def strip_trail3 (t : List Char) : List Char :=
  if endsWithL fence3 t then t.take (t.length - 3) else t

/-- The response clean-up of `call_gemini_for_shredding`: strip
whitespace, then drop a leading three-backtick-json marker, then a
leading three-backtick marker, then a trailing three-backtick marker
(each test applied to the text left by the previous step), then strip
whitespace again. -/
def strip_fences (cs : List Char) : List Char :=
  pyStripL (strip_trail3 (strip_lead3 (strip_lead_json (pyStripL cs))))

/-! ### The defaulting pass of `shred_documents` (step 3) -/

def project_metadata_null : Json :=
  Json.obj [("project_name", Json.null),
            ("issuer_name", Json.null),
            ("due_date", Json.null)]

def pursuit_details_null : Json :=
  Json.obj [("customer_address", Json.null),
            ("contact_info", Json.null),
            ("final_approver", Json.null),
            ("signer", Json.null),
            ("source", Json.null)]

def production_details_null : Json :=
  Json.obj [("submission_format", Json.null),
            ("file_requirements", Json.null),
            ("print_requirements", Json.null),
            ("delivery_method", Json.null),
            ("special_instructions", Json.null),
            ("source", Json.null)]

/-- The sub-fields checked inside a present `pursuit_details`. -/
def pursuit_keys : List String :=
  ["customer_address", "contact_info", "final_approver", "signer", "source"]

/-- The sub-fields checked inside a present `production_details`. -/
def production_keys : List String :=
  ["submission_format", "file_requirements", "print_requirements",
   "delivery_method", "special_instructions", "source"]

/-- The `if not sub.get(k): sub[k] = None` sequence over the given
keys. -/
def fix_subfields (pfs : List (String × Json)) (keys : List String) :
    List (String × Json) :=
  keys.foldl
    (fun acc k => if falsy (jget acc k) then setKey acc k Json.null else acc)
    pfs

/-- `if not result.get('project_metadata'): result['project_metadata'] = {...}`. -/
def default_project_metadata (fs : List (String × Json)) :
    List (String × Json) :=
  if falsy (jget fs "project_metadata") then
    setKey fs "project_metadata" project_metadata_null
  else fs

/-- The `pursuit_details` validation block: a falsy value is replaced by
the canonical null record, a present dict has each falsy sub-field set
to `None`, and a truthy non-dict raises (`AttributeError` on `.get`). -/
def default_pursuit_details (fs : List (String × Json)) :
    Except String (List (String × Json)) :=
  if falsy (jget fs "pursuit_details") then
    Except.ok (setKey fs "pursuit_details" pursuit_details_null)
  else
    match pyGet fs "pursuit_details" with
    | some (Json.obj pfs) =>
      Except.ok (setKey fs "pursuit_details"
        (Json.obj (fix_subfields pfs pursuit_keys)))
    | _ => Except.error "AttributeError: object has no attribute get"

/-- The `production_details` validation block, same shape. -/
def default_production_details (fs : List (String × Json)) :
    Except String (List (String × Json)) :=
  if falsy (jget fs "production_details") then
    Except.ok (setKey fs "production_details" production_details_null)
  else
    match pyGet fs "production_details" with
    | some (Json.obj qfs) =>
      Except.ok (setKey fs "production_details"
        (Json.obj (fix_subfields qfs production_keys)))
    | _ => Except.error "AttributeError: object has no attribute get"

/-- `if not result.get('submission_requirements'): result['submission_requirements'] = []`. -/
def default_submission_requirements (fs : List (String × Json)) :
    List (String × Json) :=
  if falsy (jget fs "submission_requirements") then
    setKey fs "submission_requirements" (Json.arr [])
  else fs

/-- Step 3 of `shred_documents`: the whole validate-and-default pass
over the parsed response.  A non-object response raises on the first
`.get`. -/
def normalize_result (j : Json) : Except String Json :=
  match j with
  | Json.obj fs =>
    let fs1 := default_project_metadata fs
    match default_pursuit_details fs1 with
    | Except.error e => Except.error e
    | Except.ok fs2 =>
      match default_production_details fs2 with
      | Except.error e => Except.error e
      | Except.ok fs3 =>
        Except.ok (Json.obj (default_submission_requirements fs3))
  | _ => Except.error "AttributeError: object has no attribute get"

/-! ### The batch orchestrator `shred_documents` -/

/-- One entry of the `files` request list. -/
structure FileInfo where
  file_id : String
  filename : String
  gcs_url : String
deriving DecidableEq, Repr

/-- Step 1 of `shred_documents`: download every file, dropping the ones
whose fetch (or read) raises.  `download` is the GCS collaborator. -/
def acquired_files (download : FileInfo → Except String ByteSeq)
    (files : List FileInfo) : List (ByteSeq × String) :=
  files.filterMap fun fi =>
    match download fi with
    | Except.ok bytes => some (bytes, fi.filename)
    | Except.error _ => none

/-- The visible effects of one `shred_documents` call: every request
sent to the extraction service, and the returned value or raised
error. -/
structure ShredResult where
  geminiRequests : List (List GPart)
  outcome : Except String Json

/-- `shred_documents(files, org_id)`.  `gemini` is the extraction
service (parts in, `response.text` out), `loads` is `json.loads`, and
`org_id` mirrors the unused parameter of the source. -/
def shred_documents (download : FileInfo → Except String ByteSeq)
    (gemini : List GPart → Except String String)
    (loads : String → Except String Json)
    (extract_docx : ByteSeq → Except String String)
    (prompt : String) (files : List FileInfo) (org_id : String) :
    ShredResult :=
  let files_data := acquired_files download files
  if files_data.isEmpty then
    { geminiRequests := [], outcome := Except.error "No files could be processed" }
  else
    let req := build_request prompt extract_docx files_data
    { geminiRequests := [req],
      outcome :=
        match gemini req with
        | Except.error e => Except.error e
        | Except.ok text =>
          match loads (String.mk (strip_fences text.data)) with
          | Except.error e => Except.error e
          | Except.ok raw => normalize_result raw }

/-! ### Derived checks used by theorem statements -/

/-- `true` when the named subtree is either falsy (so the defaulting
pass replaces it) or a JSON object (so the sub-field fixes apply); the
remaining truthy shapes make the pass raise `AttributeError`. -/
def subtree_ok (fs : List (String × Json)) (k : String) : Bool :=
  falsy (jget fs k) ||
    (match pyGet fs k with
     | some (Json.obj _) => true
     | _ => false)

/-- Whether a JSON value is a sequence. -/
def is_json_arr : Json → Bool
  | Json.arr _ => true
  | _ => false

/-- First and last characters (when any) are neither whitespace nor a
backtick. -/
def edge_ok (t : List Char) : Bool :=
  (match t.head? with
   | none => true
   | some c => !is_py_space c && !(c == '`')) &&
  (match t.reverse.head? with
   | none => true
   | some c => !is_py_space c && !(c == '`'))

/-! ## Helper lemmas: assoc-list reads and writes -/

theorem pyGet_setKey_self (fs : List (String × Json)) (k : String) (v : Json) :
    pyGet (setKey fs k v) k = some v := by
  induction fs with
  | nil => simp [setKey, pyGet]
  | cons p rest ih =>
    obtain ⟨k0, v0⟩ := p
    by_cases h : k0 == k
    · simp [setKey, h, pyGet]
    · simp [setKey, h, pyGet, ih]

theorem pyGet_setKey_ne (fs : List (String × Json)) (k k' : String) (v : Json)
    (h : ¬ k = k') : pyGet (setKey fs k v) k' = pyGet fs k' := by
  induction fs with
  | nil =>
    simp only [setKey, pyGet]
    rw [if_neg (by simpa [beq_iff_eq] using h)]
  | cons p rest ih =>
    obtain ⟨k0, v0⟩ := p
    by_cases h0 : k0 == k
    · have hk0 : k0 = k := by simpa [beq_iff_eq] using h0
      simp only [setKey, h0, if_true, pyGet]
      rw [if_neg (by simpa [beq_iff_eq, hk0] using h),
        if_neg (by simpa [beq_iff_eq, hk0] using h)]
    · simp only [setKey, h0, if_false, pyGet, Bool.false_eq_true]
      by_cases h1 : k0 == k'
      · simp [h1]
      · simp [h1, ih]

theorem jget_setKey_ne (fs : List (String × Json)) (k k' : String) (v : Json)
    (h : ¬ k = k') : jget (setKey fs k v) k' = jget fs k' := by
  unfold jget
  rw [pyGet_setKey_ne fs k k' v h]

/-! ## Helper lemmas: the sub-field fixing fold -/

theorem fix_subfields_cons (pfs : List (String × Json)) (k0 : String)
    (rest : List String) :
    fix_subfields pfs (k0 :: rest) =
      fix_subfields
        (if falsy (jget pfs k0) then setKey pfs k0 Json.null else pfs) rest := by
  rfl

theorem fix_subfields_pyGet_not_mem (pfs : List (String × Json))
    (keys : List String) (k : String) (h : k ∉ keys) :
    pyGet (fix_subfields pfs keys) k = pyGet pfs k := by
  induction keys generalizing pfs with
  | nil => rfl
  | cons k0 rest ih =>
    have hk0 : ¬ k0 = k := fun he => h (he ▸ List.mem_cons_self k0 rest)
    have hrest : k ∉ rest := fun hm => h (List.mem_cons_of_mem _ hm)
    rw [fix_subfields_cons, ih _ hrest]
    by_cases hf : falsy (jget pfs k0)
    · rw [if_pos hf, pyGet_setKey_ne _ _ _ _ hk0]
    · rw [if_neg hf]

theorem fix_subfields_pyGet_mem (pfs : List (String × Json))
    (keys : List String) (k : String) (hnd : keys.Nodup) (h : k ∈ keys) :
    pyGet (fix_subfields pfs keys) k =
      if falsy (jget pfs k) then some Json.null else pyGet pfs k := by
  induction keys generalizing pfs with
  | nil => cases h
  | cons k0 rest ih =>
    rw [fix_subfields_cons]
    rcases List.mem_cons.mp h with he | hm
    · subst he
      have h0r : k ∉ rest := (List.nodup_cons.mp hnd).1
      rw [fix_subfields_pyGet_not_mem _ _ _ h0r]
      by_cases hf : falsy (jget pfs k)
      · rw [if_pos hf, if_pos hf, pyGet_setKey_self]
      · rw [if_neg hf, if_neg hf]
    · have hnd' : rest.Nodup := (List.nodup_cons.mp hnd).2
      have hk0 : ¬ k0 = k := fun he => (List.nodup_cons.mp hnd).1 (he ▸ hm)
      rw [ih _ hnd' hm]
      by_cases hf : falsy (jget pfs k0)
      · rw [if_pos hf, jget_setKey_ne _ _ _ _ hk0, pyGet_setKey_ne _ _ _ _ hk0]
      · rw [if_neg hf]

/-! ## Helper lemmas: the four defaulting blocks -/

theorem default_project_metadata_self (fs : List (String × Json)) :
    pyGet (default_project_metadata fs) "project_metadata" =
      if falsy (jget fs "project_metadata") then some project_metadata_null
      else pyGet fs "project_metadata" := by
  unfold default_project_metadata
  by_cases h : falsy (jget fs "project_metadata")
  · rw [if_pos h, if_pos h, pyGet_setKey_self]
  · rw [if_neg h, if_neg h]

theorem default_project_metadata_ne (fs : List (String × Json)) (k : String)
    (h : ¬ "project_metadata" = k) :
    pyGet (default_project_metadata fs) k = pyGet fs k := by
  unfold default_project_metadata
  by_cases hf : falsy (jget fs "project_metadata")
  · rw [if_pos hf, pyGet_setKey_ne _ _ _ _ h]
  · rw [if_neg hf]

theorem default_submission_requirements_self (fs : List (String × Json)) :
    pyGet (default_submission_requirements fs) "submission_requirements" =
      if falsy (jget fs "submission_requirements") then some (Json.arr [])
      else pyGet fs "submission_requirements" := by
  unfold default_submission_requirements
  by_cases h : falsy (jget fs "submission_requirements")
  · rw [if_pos h, if_pos h, pyGet_setKey_self]
  · rw [if_neg h, if_neg h]

theorem default_submission_requirements_ne (fs : List (String × Json))
    (k : String) (h : ¬ "submission_requirements" = k) :
    pyGet (default_submission_requirements fs) k = pyGet fs k := by
  unfold default_submission_requirements
  by_cases hf : falsy (jget fs "submission_requirements")
  · rw [if_pos hf, pyGet_setKey_ne _ _ _ _ h]
  · rw [if_neg hf]

/-- Both `pursuit_details` and `production_details` blocks follow one
pattern; this function captures it for shared lemmas. -/
def defaultSubtreeAux (fs : List (String × Json)) (key : String)
    (nullrec : Json) (keys : List String) :
    Except String (List (String × Json)) :=
  if falsy (jget fs key) then Except.ok (setKey fs key nullrec)
  else
    match pyGet fs key with
    | some (Json.obj pfs) =>
      Except.ok (setKey fs key (Json.obj (fix_subfields pfs keys)))
    | _ => Except.error "AttributeError: object has no attribute get"

theorem default_pursuit_details_eq_aux (fs : List (String × Json)) :
    default_pursuit_details fs =
      defaultSubtreeAux fs "pursuit_details" pursuit_details_null pursuit_keys := by
  rfl

theorem default_production_details_eq_aux (fs : List (String × Json)) :
    default_production_details fs =
      defaultSubtreeAux fs "production_details" production_details_null
        production_keys := by
  rfl

theorem subtree_ok_congr (fs fs' : List (String × Json)) (k : String)
    (h : pyGet fs' k = pyGet fs k) : subtree_ok fs' k = subtree_ok fs k := by
  unfold subtree_ok jget
  rw [h]

theorem defaultSubtreeAux_spec (fs : List (String × Json)) (key : String)
    (nullrec : Json) (keys : List String)
    (h : subtree_ok fs key = true) :
    ∃ fs2, defaultSubtreeAux fs key nullrec keys = Except.ok fs2 ∧
      (∀ k, ¬ key = k → pyGet fs2 k = pyGet fs k) ∧
      (falsy (jget fs key) = true → pyGet fs2 key = some nullrec) ∧
      (∀ pfs, pyGet fs key = some (Json.obj pfs) → falsy (Json.obj pfs) = false →
        pyGet fs2 key = some (Json.obj (fix_subfields pfs keys))) := by
  unfold defaultSubtreeAux
  by_cases hf : falsy (jget fs key)
  · refine ⟨setKey fs key nullrec, by rw [if_pos hf], ?_, ?_, ?_⟩
    · intro k hk
      exact pyGet_setKey_ne _ _ _ _ hk
    · intro _
      exact pyGet_setKey_self _ _ _
    · intro pfs hget hfalse
      have : jget fs key = Json.obj pfs := by unfold jget; rw [hget]; rfl
      rw [this] at hf
      rw [hf] at hfalse
      cases hfalse
  · unfold subtree_ok at h
    rw [Bool.or_eq_true] at h
    rcases h with h | h
    · exact absurd h hf
    · cases hget : pyGet fs key with
      | none =>
        exfalso
        apply hf
        unfold jget
        rw [hget]
        rfl
      | some v =>
        cases v with
        | obj pfs =>
          rw [if_neg hf]
          refine ⟨setKey fs key (Json.obj (fix_subfields pfs keys)), rfl, ?_, ?_, ?_⟩
          · intro k hk
            exact pyGet_setKey_ne _ _ _ _ hk
          · intro hft
            exact absurd hft hf
          · intro pfs' hget' _
            cases hget'
            exact pyGet_setKey_self _ _ _
        | null => rw [hget] at h; cases h
        | bool b => rw [hget] at h; cases h
        | num n => rw [hget] at h; cases h
        | str s => rw [hget] at h; cases h
        | arr xs => rw [hget] at h; cases h

theorem normalize_result_obj (fs : List (String × Json)) :
    normalize_result (Json.obj fs) =
      match default_pursuit_details (default_project_metadata fs) with
      | Except.error e => Except.error e
      | Except.ok fs2 =>
        match default_production_details fs2 with
        | Except.error e => Except.error e
        | Except.ok fs3 =>
          Except.ok (Json.obj (default_submission_requirements fs3)) := by
  rfl

/-- Full description of a successful defaulting pass: how each of the
four keys of the output relates to the corresponding raw value. -/
theorem normalize_result_master (fs : List (String × Json))
    (hp : subtree_ok fs "pursuit_details" = true)
    (hq : subtree_ok fs "production_details" = true) :
    ∃ out, normalize_result (Json.obj fs) = Except.ok (Json.obj out) ∧
      pyGet out "project_metadata" =
        (if falsy (jget fs "project_metadata") then some project_metadata_null
         else pyGet fs "project_metadata") ∧
      (falsy (jget fs "pursuit_details") = true →
        pyGet out "pursuit_details" = some pursuit_details_null) ∧
      (∀ pfs, pyGet fs "pursuit_details" = some (Json.obj pfs) →
        falsy (Json.obj pfs) = false →
        pyGet out "pursuit_details" =
          some (Json.obj (fix_subfields pfs pursuit_keys))) ∧
      (falsy (jget fs "production_details") = true →
        pyGet out "production_details" = some production_details_null) ∧
      (∀ qfs, pyGet fs "production_details" = some (Json.obj qfs) →
        falsy (Json.obj qfs) = false →
        pyGet out "production_details" =
          some (Json.obj (fix_subfields qfs production_keys))) ∧
      pyGet out "submission_requirements" =
        (if falsy (jget fs "submission_requirements") then some (Json.arr [])
         else pyGet fs "submission_requirements") := by
  have hp1 : subtree_ok (default_project_metadata fs) "pursuit_details" = true := by
    rw [subtree_ok_congr fs _ _ (default_project_metadata_ne fs _ (by decide))]
    exact hp
  obtain ⟨fs2, h2ok, h2ne, h2f, h2obj⟩ :=
    defaultSubtreeAux_spec (default_project_metadata fs) "pursuit_details"
      pursuit_details_null pursuit_keys hp1
  have hq2 : subtree_ok fs2 "production_details" = true := by
    rw [subtree_ok_congr _ fs2 _ (h2ne _ (by decide)),
      subtree_ok_congr fs _ _ (default_project_metadata_ne fs _ (by decide))]
    exact hq
  obtain ⟨fs3, h3ok, h3ne, h3f, h3obj⟩ :=
    defaultSubtreeAux_spec fs2 "production_details" production_details_null
      production_keys hq2
  have hjpd : jget (default_project_metadata fs) "pursuit_details" =
      jget fs "pursuit_details" := by
    unfold jget
    rw [default_project_metadata_ne fs _ (by decide)]
  have hpd2 : pyGet fs2 "production_details" = pyGet fs "production_details" := by
    rw [h2ne _ (by decide), default_project_metadata_ne fs _ (by decide)]
  have hjpd2 : jget fs2 "production_details" = jget fs "production_details" := by
    unfold jget
    rw [hpd2]
  refine ⟨default_submission_requirements fs3, ?_, ?_, ?_, ?_, ?_, ?_, ?_⟩
  · simp only [normalize_result_obj, default_pursuit_details_eq_aux, h2ok,
      default_production_details_eq_aux, h3ok]
  · rw [default_submission_requirements_ne fs3 _ (by decide),
      h3ne _ (by decide), h2ne _ (by decide), default_project_metadata_self fs]
  · intro hf
    rw [default_submission_requirements_ne fs3 _ (by decide), h3ne _ (by decide)]
    apply h2f
    rw [hjpd]
    exact hf
  · intro pfs hget hfal
    rw [default_submission_requirements_ne fs3 _ (by decide), h3ne _ (by decide)]
    apply h2obj pfs ?_ hfal
    rw [default_project_metadata_ne fs _ (by decide)]
    exact hget
  · intro hf
    rw [default_submission_requirements_ne fs3 _ (by decide)]
    apply h3f
    rw [hjpd2]
    exact hf
  · intro qfs hget hfal
    rw [default_submission_requirements_ne fs3 _ (by decide)]
    apply h3obj qfs ?_ hfal
    rw [hpd2]
    exact hget
  · have h1 : pyGet fs3 "submission_requirements" =
        pyGet fs "submission_requirements" := by
      rw [h3ne _ (by decide), h2ne _ (by decide),
        default_project_metadata_ne fs _ (by decide)]
    have h2 : jget fs3 "submission_requirements" =
        jget fs "submission_requirements" := by
      unfold jget
      rw [h1]
    rw [default_submission_requirements_self fs3, h1, h2]

/-! ## Claim C1 -/

/-- Claim C1, counterexample.  The raw response carries a present (truthy)
`project_metadata` missing its `issuer_name` leaf and a present
`pursuit_details.customer_address` missing its `city` leaf.  The
normalizer keeps both subtrees without nulling the absent leaves: the
output's `project_metadata` still has no `issuer_name` key and the
nested `customer_address` still has no `city` key, refuting "every
absent leaf field inside a present subtree is itself set to null, at
every level". -/
theorem defaulting_totality_counterexample :
    normalize_result (Json.obj
        [("project_metadata", Json.obj [("project_name", Json.str "RFP")]),
         ("pursuit_details",
          Json.obj [("customer_address", Json.obj [("street", Json.str "Main")])])]) =
      Except.ok (Json.obj
        [("project_metadata", Json.obj [("project_name", Json.str "RFP")]),
         ("pursuit_details",
          Json.obj [("customer_address", Json.obj [("street", Json.str "Main")]),
                    ("contact_info", Json.null),
                    ("final_approver", Json.null),
                    ("signer", Json.null),
                    ("source", Json.null)]),
         ("production_details", production_details_null),
         ("submission_requirements", Json.arr [])]) ∧
    pyGet [("project_name", Json.str "RFP")] "issuer_name" = none ∧
    pyGet [("street", Json.str "Main")] "city" = none := by
  exact ⟨rfl, rfl, rfl⟩

/-- Claim C1, amended.  For every well-formed (top-level object whose
`pursuit_details` and `production_details` are each falsy or an object)
response, the defaulting pass replaces every falsy (in particular
absent) optional subtree by its canonical all-null-fields record, and
inside a present `pursuit_details` or `production_details` object it
sets every falsy (in particular absent) direct child field to null,
keeping the other children.  Unlike the original claim, the leaves of a
present `project_metadata` are left untouched (the subtree is passed
through unchanged) and fields nested deeper than one level below
`pursuit_details`/`production_details` are not defaulted. -/
theorem defaulting_totality_amended (fs : List (String × Json))
    (hp : subtree_ok fs "pursuit_details" = true)
    (hq : subtree_ok fs "production_details" = true) :
    ∃ out, normalize_result (Json.obj fs) = Except.ok (Json.obj out) ∧
      (falsy (jget fs "project_metadata") = true →
        pyGet out "project_metadata" = some project_metadata_null) ∧
      (falsy (jget fs "project_metadata") = false →
        pyGet out "project_metadata" = pyGet fs "project_metadata") ∧
      (falsy (jget fs "pursuit_details") = true →
        pyGet out "pursuit_details" = some pursuit_details_null) ∧
      (∀ pfs, pyGet fs "pursuit_details" = some (Json.obj pfs) → pfs ≠ [] →
        ∃ pfs2, pyGet out "pursuit_details" = some (Json.obj pfs2) ∧
          ∀ k ∈ pursuit_keys,
            pyGet pfs2 k =
              if falsy (jget pfs k) then some Json.null else pyGet pfs k) ∧
      (falsy (jget fs "production_details") = true →
        pyGet out "production_details" = some production_details_null) ∧
      (∀ qfs, pyGet fs "production_details" = some (Json.obj qfs) → qfs ≠ [] →
        ∃ qfs2, pyGet out "production_details" = some (Json.obj qfs2) ∧
          ∀ k ∈ production_keys,
            pyGet qfs2 k =
              if falsy (jget qfs k) then some Json.null else pyGet qfs k) := by
  obtain ⟨out, hok, hpm, hpdf, hpdo, hqdf, hqdo, _⟩ :=
    normalize_result_master fs hp hq
  refine ⟨out, hok, ?_, ?_, hpdf, ?_, hqdf, ?_⟩
  · intro hf
    rw [hpm, if_pos hf]
  · intro hf
    rw [hpm, if_neg (by rw [hf]; exact Bool.false_ne_true)]
  · intro pfs hget hne
    have hfal : falsy (Json.obj pfs) = false := by
      cases pfs with
      | nil => exact absurd rfl hne
      | cons p rest => rfl
    refine ⟨fix_subfields pfs pursuit_keys, hpdo pfs hget hfal, ?_⟩
    intro k hk
    exact fix_subfields_pyGet_mem pfs pursuit_keys k (by decide) hk
  · intro qfs hget hne
    have hfal : falsy (Json.obj qfs) = false := by
      cases qfs with
      | nil => exact absurd rfl hne
      | cons p rest => rfl
    refine ⟨fix_subfields qfs production_keys, hqdo qfs hget hfal, ?_⟩
    intro k hk
    exact fix_subfields_pyGet_mem qfs production_keys k (by decide) hk

/-- Witness for the amended claim C1 at a concrete sparse response. -/
theorem defaulting_totality_amended_witness :
    subtree_ok [("pursuit_details", Json.obj [("signer", Json.str "Bob")])]
      "pursuit_details" = true ∧
    subtree_ok [("pursuit_details", Json.obj [("signer", Json.str "Bob")])]
      "production_details" = true ∧
    (∃ out, normalize_result (Json.obj
        [("pursuit_details", Json.obj [("signer", Json.str "Bob")])]) =
        Except.ok (Json.obj out) ∧
      (falsy (jget [("pursuit_details", Json.obj [("signer", Json.str "Bob")])]
          "project_metadata") = true →
        pyGet out "project_metadata" = some project_metadata_null) ∧
      (falsy (jget [("pursuit_details", Json.obj [("signer", Json.str "Bob")])]
          "project_metadata") = false →
        pyGet out "project_metadata" =
          pyGet [("pursuit_details", Json.obj [("signer", Json.str "Bob")])]
            "project_metadata") ∧
      (falsy (jget [("pursuit_details", Json.obj [("signer", Json.str "Bob")])]
          "pursuit_details") = true →
        pyGet out "pursuit_details" = some pursuit_details_null) ∧
      (∀ pfs, pyGet [("pursuit_details", Json.obj [("signer", Json.str "Bob")])]
          "pursuit_details" = some (Json.obj pfs) → pfs ≠ [] →
        ∃ pfs2, pyGet out "pursuit_details" = some (Json.obj pfs2) ∧
          ∀ k ∈ pursuit_keys,
            pyGet pfs2 k =
              if falsy (jget pfs k) then some Json.null else pyGet pfs k) ∧
      (falsy (jget [("pursuit_details", Json.obj [("signer", Json.str "Bob")])]
          "production_details") = true →
        pyGet out "production_details" = some production_details_null) ∧
      (∀ qfs, pyGet [("pursuit_details", Json.obj [("signer", Json.str "Bob")])]
          "production_details" = some (Json.obj qfs) → qfs ≠ [] →
        ∃ qfs2, pyGet out "production_details" = some (Json.obj qfs2) ∧
          ∀ k ∈ production_keys,
            pyGet qfs2 k =
              if falsy (jget qfs k) then some Json.null else pyGet qfs k)) := by
  exact ⟨rfl, rfl,
    defaulting_totality_amended
      [("pursuit_details", Json.obj [("signer", Json.str "Bob")])] rfl rfl⟩

/-! ## Claim C3 -/

/-- Claim C3, counterexample.  A raw response carrying
`submission_requirements` as the truthy non-sequence string `"abc"` is
passed through unchanged by the normalizer, so the output's
`submission_requirements` is not a sequence, refuting "the
submission_requirements field is a (possibly empty) sequence" for
arbitrary raw responses. -/
theorem submission_requirements_counterexample :
    normalize_result (Json.obj [("submission_requirements", Json.str "abc")]) =
      Except.ok (Json.obj
        [("submission_requirements", Json.str "abc"),
         ("project_metadata", project_metadata_null),
         ("pursuit_details", pursuit_details_null),
         ("production_details", production_details_null)]) ∧
    is_json_arr (Json.str "abc") = false := by
  exact ⟨rfl, rfl⟩

/-- Claim C3, amended.  For every well-formed response (in the sense of
claim C1), the output always carries the `submission_requirements` key
and its value is never null; whenever the raw response omits the field
or carries it as null (or any other falsy value), the output holds the
empty sequence.  A truthy raw value, however, is passed through
unchanged, so the output is a sequence only when the service returned
one. -/
theorem submission_requirements_amended (fs : List (String × Json))
    (hp : subtree_ok fs "pursuit_details" = true)
    (hq : subtree_ok fs "production_details" = true) :
    ∃ out, normalize_result (Json.obj fs) = Except.ok (Json.obj out) ∧
      (pyGet out "submission_requirements").isSome = true ∧
      pyGet out "submission_requirements" ≠ some Json.null ∧
      (falsy (jget fs "submission_requirements") = true →
        pyGet out "submission_requirements" = some (Json.arr [])) ∧
      (falsy (jget fs "submission_requirements") = false →
        pyGet out "submission_requirements" =
          pyGet fs "submission_requirements") := by
  obtain ⟨out, hok, _, _, _, _, _, hsr⟩ := normalize_result_master fs hp hq
  by_cases hf : falsy (jget fs "submission_requirements")
  · rw [if_pos hf] at hsr
    refine ⟨out, hok, ?_, ?_, fun _ => hsr, ?_⟩
    · rw [hsr]
      rfl
    · rw [hsr]
      intro hcon
      cases hcon
    · intro hcon
      rw [hf] at hcon
      cases hcon
  · rw [if_neg hf] at hsr
    cases hget : pyGet fs "submission_requirements" with
    | none =>
      exfalso
      apply hf
      unfold jget
      rw [hget]
      rfl
    | some v =>
      have hvf : falsy v = false := by
        cases hb : falsy v with
        | false => rfl
        | true =>
          exfalso
          apply hf
          unfold jget
          rw [hget]
          exact hb
      refine ⟨out, hok, ?_, ?_, ?_, fun _ => hsr.trans hget⟩
      · rw [hsr, hget]
        rfl
      · rw [hsr, hget]
        intro hcon
        cases hcon
        cases hvf
      · intro hcon
        exact absurd hcon hf

/-- Witness for the amended claim C3 at a concrete response omitting
`submission_requirements`. -/
theorem submission_requirements_amended_witness :
    subtree_ok [("project_metadata", Json.obj [("project_name", Json.str "X")])]
      "pursuit_details" = true ∧
    subtree_ok [("project_metadata", Json.obj [("project_name", Json.str "X")])]
      "production_details" = true ∧
    (∃ out, normalize_result (Json.obj
        [("project_metadata", Json.obj [("project_name", Json.str "X")])]) =
        Except.ok (Json.obj out) ∧
      (pyGet out "submission_requirements").isSome = true ∧
      pyGet out "submission_requirements" ≠ some Json.null ∧
      (falsy (jget [("project_metadata", Json.obj [("project_name", Json.str "X")])]
          "submission_requirements") = true →
        pyGet out "submission_requirements" = some (Json.arr [])) ∧
      (falsy (jget [("project_metadata", Json.obj [("project_name", Json.str "X")])]
          "submission_requirements") = false →
        pyGet out "submission_requirements" =
          pyGet [("project_metadata", Json.obj [("project_name", Json.str "X")])]
            "submission_requirements")) := by
  exact ⟨rfl, rfl,
    submission_requirements_amended
      [("project_metadata", Json.obj [("project_name", Json.str "X")])] rfl rfl⟩

/-! ## Claim C9 -/

theorem tee_contains_eq_false (e : String) (h1 : ¬ e = "doc")
    (h2 : ¬ e = "docx") : text_extraction_extensions.contains e = false := by
  simp [text_extraction_extensions, h1, h2]

theorem pyGet_mime_mapping_none (e : String) (h1 : ¬ e = "pdf")
    (h2 : ¬ e = "txt") (h3 : ¬ e = "csv") (h4 : ¬ e = "json")
    (h5 : ¬ e = "png") (h6 : ¬ e = "jpg") (h7 : ¬ e = "jpeg")
    (h8 : ¬ e = "gif") (h9 : ¬ e = "webp") :
    pyGet mime_mapping e = none := by
  simp only [mime_mapping, pyGet, beq_iff_eq]
  rw [if_neg (fun hh => h1 hh.symm), if_neg (fun hh => h2 hh.symm),
    if_neg (fun hh => h3 hh.symm), if_neg (fun hh => h4 hh.symm),
    if_neg (fun hh => h5 hh.symm), if_neg (fun hh => h6 hh.symm),
    if_neg (fun hh => h7 hh.symm), if_neg (fun hh => h8 hh.symm),
    if_neg (fun hh => h9 hh.symm)]

/-- Claim C9: classification is total over all filenames — it always
returns exactly one of the three classes and never raises — and every
extension outside the fixed mime table and the word-processor set is
classified `unsupported`. -/
theorem classification_totality (fn : String) :
    ((∃ m, classify_filename fn = DocClass.nativeUpload m) ∨
      classify_filename fn = DocClass.textExtractRequired ∨
      classify_filename fn = DocClass.unsupported) ∧
    (file_ext fn ∉ ["pdf", "txt", "csv", "json", "png", "jpg", "jpeg", "gif",
        "webp", "doc", "docx"] →
      classify_filename fn = DocClass.unsupported) := by
  constructor
  · cases hc : classify_filename fn with
    | nativeUpload m => exact Or.inl ⟨m, rfl⟩
    | textExtractRequired => exact Or.inr (Or.inl rfl)
    | unsupported => exact Or.inr (Or.inr rfl)
  · intro h
    simp only [List.mem_cons, List.not_mem_nil, or_false, not_or] at h
    obtain ⟨h1, h2, h3, h4, h5, h6, h7, h8, h9, h10, h11⟩ := h
    simp only [classify_filename]
    rw [tee_contains_eq_false _ h10 h11]
    simp only [Bool.false_eq_true, if_false]
    rw [pyGet_mime_mapping_none _ h1 h2 h3 h4 h5 h6 h7 h8 h9]

/-- Witness for claim C9: an `.xls` filename lies outside both extension
sets and is classified `unsupported`. -/
theorem classification_totality_witness :
    file_ext "report.xls" ∉ ["pdf", "txt", "csv", "json", "png", "jpg", "jpeg",
      "gif", "webp", "doc", "docx"] ∧
    classify_filename "report.xls" = DocClass.unsupported := by
  exact ⟨by decide, (classification_totality "report.xls").2 (by decide)⟩

/-! ## Claim C2 -/

/-- Claim C2: a file whose extension is classified `unsupported`
contributes no part at all to the extraction request — in particular no
binary content — and is rejected with a human-readable log record
naming the file and its extension. -/
theorem unsupported_file_rejected (extract_docx : ByteSeq → Except String String)
    (file_bytes : ByteSeq) (filename : String)
    (h : classify_filename filename = DocClass.unsupported) :
    encode_file extract_docx file_bytes filename =
      { parts := [],
        logs := [unsupported_skip_message filename (file_ext filename)] } := by
  unfold classify_filename at h
  by_cases hc : text_extraction_extensions.contains (file_ext filename) = true
  · rw [if_pos hc] at h
    cases h
  · rw [if_neg hc] at h
    cases hm : pyGet mime_mapping (file_ext filename) with
    | some m => rw [hm] at h; cases h
    | none =>
      have hcf : text_extraction_extensions.contains (file_ext filename) = false := by
        cases hcc : text_extraction_extensions.contains (file_ext filename) with
        | true => exact absurd hcc hc
        | false => rfl
      simp only [encode_file, hcf, Bool.false_eq_true, if_false, hm,
        Option.getD_none, beq_self_eq_true, if_true, List.nil_append]

/-- Witness for claim C2 at a concrete `.xls` file. -/
theorem unsupported_file_rejected_witness :
    classify_filename "sheet.xls" = DocClass.unsupported ∧
    encode_file (fun _ => Except.ok "") [7] "sheet.xls" =
      { parts := [],
        logs := [unsupported_skip_message "sheet.xls" (file_ext "sheet.xls")] } := by
  exact ⟨by decide,
    unsupported_file_rejected (fun _ => Except.ok "") [7] "sheet.xls" (by decide)⟩

/-! ## Claim C6 -/

/-- Claim C6: a `.docx` file whose text extraction fails is degraded to
a rejection — a warning log carrying the failure reason followed by the
skip record, with no part added to the request — and the batch
continues: the request built over the surrounding files is exactly the
request built without the failing file. -/
theorem docx_failure_degrades (extract_docx : ByteSeq → Except String String)
    (file_bytes : ByteSeq) (filename e prompt : String)
    (pre post : List (ByteSeq × String))
    (hext : file_ext filename = "docx")
    (hfail : extract_docx file_bytes = Except.error e) :
    encode_file extract_docx file_bytes filename =
      { parts := [],
        logs := [extract_failed_message filename e,
                 unsupported_skip_message filename "docx"] } ∧
    build_request prompt extract_docx (pre ++ (file_bytes, filename) :: post) =
      build_request prompt extract_docx (pre ++ post) := by
  have henc : encode_file extract_docx file_bytes filename =
      { parts := [],
        logs := [extract_failed_message filename e,
                 unsupported_skip_message filename "docx"] } := by
    simp only [encode_file, hext, hfail]
    rfl
  refine ⟨henc, ?_⟩
  unfold build_request
  rw [List.flatMap_append, List.flatMap_cons, henc, List.flatMap_append]
  simp

/-- Witness for claim C6 at a concrete failing `.docx` file between two
other files. -/
theorem docx_failure_degrades_witness :
    file_ext "broken.docx" = "docx" ∧
    (fun (_ : ByteSeq) => (Except.error "boom" : Except String String)) [0] =
      Except.error "boom" ∧
    (encode_file (fun _ => Except.error "boom") [0] "broken.docx" =
      { parts := [],
        logs := [extract_failed_message "broken.docx" "boom",
                 unsupported_skip_message "broken.docx" "docx"] } ∧
    build_request "prompt" (fun _ => Except.error "boom")
        ([([1], "a.pdf")] ++ ([0], "broken.docx") :: [([2], "b.txt")]) =
      build_request "prompt" (fun _ => Except.error "boom")
        ([([1], "a.pdf")] ++ [([2], "b.txt")])) := by
  exact ⟨by decide, rfl,
    docx_failure_degrades (fun _ => Except.error "boom") [0] "broken.docx"
      "boom" "prompt" [([1], "a.pdf")] [([2], "b.txt")] (by decide) rfl⟩

/-! ## Claim C4 -/

/-- Claim C4: a batch with at least one acquired file makes exactly one
call to the extraction service, and that single multimodal request
batches the instruction prompt together with every acquired file's
encoded parts in order.  (A batch with zero acquired files fails before
any call; see claim C5.) -/
theorem single_service_call (download : FileInfo → Except String ByteSeq)
    (gemini : List GPart → Except String String)
    (loads : String → Except String Json)
    (extract_docx : ByteSeq → Except String String)
    (prompt : String) (files : List FileInfo) (org_id : String)
    (h : acquired_files download files ≠ []) :
    (shred_documents download gemini loads extract_docx prompt files
        org_id).geminiRequests =
      [GPart.text prompt ::
        (acquired_files download files).flatMap
          (fun fd => (encode_file extract_docx fd.1 fd.2).parts)] ∧
    (shred_documents download gemini loads extract_docx prompt files
        org_id).geminiRequests.length = 1 := by
  have hie : (acquired_files download files).isEmpty = false := by
    cases hA : acquired_files download files with
    | nil => exact absurd hA h
    | cons a l => rfl
  constructor
  · simp only [shred_documents, hie, Bool.false_eq_true, if_false, build_request]
  · simp only [shred_documents, hie, Bool.false_eq_true, if_false,
      List.length_singleton]

/-- Witness for claim C4 at a one-file batch with stubbed
collaborators. -/
theorem single_service_call_witness :
    acquired_files (fun _ => Except.ok [1]) [⟨"1", "a.pdf", "gs://b/a.pdf"⟩] ≠ [] ∧
    ((shred_documents (fun _ => Except.ok [1]) (fun _ => Except.ok "x")
        (fun _ => Except.ok (Json.obj [])) (fun _ => Except.ok "") "P"
        [⟨"1", "a.pdf", "gs://b/a.pdf"⟩] "org").geminiRequests =
      [GPart.text "P" ::
        (acquired_files (fun _ => Except.ok [1])
            [⟨"1", "a.pdf", "gs://b/a.pdf"⟩]).flatMap
          (fun fd => (encode_file (fun _ => Except.ok "") fd.1 fd.2).parts)] ∧
    (shred_documents (fun _ => Except.ok [1]) (fun _ => Except.ok "x")
        (fun _ => Except.ok (Json.obj [])) (fun _ => Except.ok "") "P"
        [⟨"1", "a.pdf", "gs://b/a.pdf"⟩] "org").geminiRequests.length = 1) := by
  exact ⟨by decide,
    single_service_call (fun _ => Except.ok [1]) (fun _ => Except.ok "x")
      (fun _ => Except.ok (Json.obj [])) (fun _ => Except.ok "") "P"
      [⟨"1", "a.pdf", "gs://b/a.pdf"⟩] "org" (by decide)⟩

/-! ## Claim C5 -/

/-- Claim C5: when every file's acquisition fails, for any file count,
the batch terminates with the "No files could be processed" error and
no extraction-service request is ever built or sent. -/
theorem all_acquisitions_failed (download : FileInfo → Except String ByteSeq)
    (gemini : List GPart → Except String String)
    (loads : String → Except String Json)
    (extract_docx : ByteSeq → Except String String)
    (prompt : String) (files : List FileInfo) (org_id : String)
    (h : ∀ f ∈ files, ∃ e, download f = Except.error e) :
    shred_documents download gemini loads extract_docx prompt files org_id =
      { geminiRequests := [],
        outcome := Except.error "No files could be processed" } := by
  have hA : acquired_files download files = [] := by
    unfold acquired_files
    rw [List.filterMap_eq_nil_iff]
    intro fi hfi
    obtain ⟨e, he⟩ := h fi hfi
    rw [he]
  simp only [shred_documents, hA, List.isEmpty_nil, if_true]

/-- Witness for claim C5: a two-file batch whose downloads all fail. -/
theorem all_acquisitions_failed_witness :
    (∀ f ∈ [(⟨"1", "a.pdf", "u1"⟩ : FileInfo), ⟨"2", "b.pdf", "u2"⟩],
      ∃ e, (fun (_ : FileInfo) =>
        (Except.error "download failed" : Except String ByteSeq)) f =
          Except.error e) ∧
    shred_documents
        (fun _ => Except.error "download failed") (fun _ => Except.ok "x")
        (fun _ => Except.ok (Json.obj [])) (fun _ => Except.ok "") "P"
        [⟨"1", "a.pdf", "u1"⟩, ⟨"2", "b.pdf", "u2"⟩] "org" =
      { geminiRequests := [],
        outcome := Except.error "No files could be processed" } := by
  exact ⟨fun f _ => ⟨"download failed", rfl⟩,
    all_acquisitions_failed (fun _ => Except.error "download failed")
      (fun _ => Except.ok "x") (fun _ => Except.ok (Json.obj []))
      (fun _ => Except.ok "") "P"
      [⟨"1", "a.pdf", "u1"⟩, ⟨"2", "b.pdf", "u2"⟩] "org"
      (fun f _ => ⟨"download failed", rfl⟩)⟩

/-! ## Claim C10 -/

/-- Claim C10: two batch requests differing only in `org_id` (same
files, same collaborator behaviour) produce identical results — the
orchestrator never reads `org_id`. -/
theorem org_id_noninterference (download : FileInfo → Except String ByteSeq)
    (gemini : List GPart → Except String String)
    (loads : String → Except String Json)
    (extract_docx : ByteSeq → Except String String)
    (prompt : String) (files : List FileInfo) (org_id1 org_id2 : String) :
    shred_documents download gemini loads extract_docx prompt files org_id1 =
      shred_documents download gemini loads extract_docx prompt files org_id2 := by
  rfl

/-! ## Claims C7 and C8: fence stripping -/

theorem bool_not_true (b : Bool) (h : (!b) = true) : b = false := by
  cases b with
  | false => rfl
  | true => cases h

theorem beq_flip_false (a b : Char) (h : (a == b) = false) : (b == a) = false := by
  cases hab : b == a with
  | false => rfl
  | true =>
    have hba : b = a := eq_of_beq hab
    subst hba
    rw [beq_self_eq_true] at h
    cases h

theorem fence_json_eq :
    fence_json = '`' :: '`' :: '`' :: 'j' :: 's' :: 'o' :: 'n' :: [] := by
  rfl

theorem fence3_eq : fence3 = '`' :: '`' :: '`' :: [] := by
  rfl

theorem fence3_rev : fence3.reverse = '`' :: '`' :: '`' :: [] := by
  rfl

theorem startsWithL_append (p r : List Char) : startsWithL p (p ++ r) = true := by
  induction p with
  | nil => rfl
  | cons c ps ih => simp [startsWithL, ih]

theorem startsWithL_cons_ne (p c : Char) (ps cs : List Char)
    (h : (p == c) = false) : startsWithL (p :: ps) (c :: cs) = false := by
  simp [startsWithL, h]

theorem dropWhile_cons_of_false (p : Char → Bool) (c : Char) (cs : List Char)
    (h : p c = false) : (c :: cs).dropWhile p = c :: cs := by
  simp [List.dropWhile_cons, h]

/-- A list whose first and last characters are non-whitespace is left
unchanged by `str.strip()`. -/
theorem pyStripL_eq_self (t : List Char)
    (hh : ∀ c cs, t = c :: cs → is_py_space c = false)
    (hl : ∀ c cs, t.reverse = c :: cs → is_py_space c = false) :
    pyStripL t = t := by
  unfold pyStripL
  cases t with
  | nil => rfl
  | cons c cs =>
    rw [dropWhile_cons_of_false _ _ _ (hh c cs rfl)]
    cases htr : (c :: cs).reverse with
    | nil =>
      exfalso
      have h2 := congrArg List.reverse htr
      rw [List.reverse_reverse, List.reverse_nil] at h2
      cases h2
    | cons d ds =>
      rw [dropWhile_cons_of_false _ _ _ (hl d ds htr), ← htr,
        List.reverse_reverse]

/-- Step behaviour: a leading three-backtick-json marker is removed. -/
theorem strip_lead_json_append (r : List Char) :
    strip_lead_json (fence_json ++ r) = r := by
  unfold strip_lead_json
  rw [startsWithL_append, if_pos rfl, fence_json_eq]
  rfl

/-- Step behaviour: a text whose first character is not a backtick is
untouched by the json-fence removal. -/
theorem strip_lead_json_ne (c : Char) (cs : List Char)
    (h : (c == '`') = false) : strip_lead_json (c :: cs) = c :: cs := by
  unfold strip_lead_json
  rw [fence_json_eq, startsWithL_cons_ne _ _ _ _ (beq_flip_false c '`' h),
    if_neg Bool.false_ne_true]

/-- Step behaviour: a leading three-backtick marker is removed. -/
theorem strip_lead3_append (r : List Char) :
    strip_lead3 (fence3 ++ r) = r := by
  unfold strip_lead3
  rw [startsWithL_append, if_pos rfl, fence3_eq]
  rfl

/-- Step behaviour: a text whose first character is not a backtick is
untouched by the bare-fence removal. -/
theorem strip_lead3_ne (c : Char) (cs : List Char)
    (h : (c == '`') = false) : strip_lead3 (c :: cs) = c :: cs := by
  unfold strip_lead3
  rw [fence3_eq, startsWithL_cons_ne _ _ _ _ (beq_flip_false c '`' h),
    if_neg Bool.false_ne_true]

/-- Step behaviour: a trailing three-backtick marker is removed. -/
theorem strip_trail3_append (t : List Char) :
    strip_trail3 (t ++ fence3) = t := by
  unfold strip_trail3 endsWithL
  rw [List.reverse_append, fence3_rev, ← fence3_eq]
  rw [startsWithL_append fence3 t.reverse, if_pos rfl, List.length_append,
    show fence3.length = 3 from rfl, Nat.add_sub_cancel, List.take_left]

/-- Step behaviour: a text whose last character is not a backtick is
untouched by the trailing-fence removal. -/
theorem strip_trail3_ne (t : List Char) (d : Char) (ds : List Char)
    (htr : t.reverse = d :: ds) (h : (d == '`') = false) :
    strip_trail3 t = t := by
  unfold strip_trail3 endsWithL
  rw [htr, fence3_rev, startsWithL_cons_ne _ _ _ _ (beq_flip_false d '`' h),
    if_neg Bool.false_ne_true]

theorem edge_ok_head (c : Char) (cs : List Char)
    (h : edge_ok (c :: cs) = true) :
    is_py_space c = false ∧ (c == '`') = false := by
  unfold edge_ok at h
  rw [Bool.and_eq_true] at h
  have h1 := h.1
  simp only [List.head?_cons] at h1
  rw [Bool.and_eq_true] at h1
  exact ⟨bool_not_true _ h1.1, bool_not_true _ h1.2⟩

theorem edge_ok_last (t : List Char) (c : Char) (cs : List Char)
    (h : edge_ok t = true) (ht : t.reverse = c :: cs) :
    is_py_space c = false ∧ (c == '`') = false := by
  unfold edge_ok at h
  rw [Bool.and_eq_true] at h
  have h2 := h.2
  rw [ht] at h2
  simp only [List.head?_cons] at h2
  rw [Bool.and_eq_true] at h2
  exact ⟨bool_not_true _ h2.1, bool_not_true _ h2.2⟩

/-- With a trimmed text whose edge characters are neither whitespace
nor backticks, the stripping pipeline acts exactly as expected on the
unfenced, lead-fenced, trail-fenced and fully-fenced variants. -/
theorem strip_fences_cases (t : List Char) (h : edge_ok t = true) :
    strip_fences t = t ∧
    strip_fences (fence_json ++ t) = t ∧
    strip_fences (t ++ fence3) = t ∧
    strip_fences (fence_json ++ t ++ fence3) = t := by
  cases t with
  | nil =>
    refine ⟨rfl, ?_, rfl, ?_⟩
    · rw [List.append_nil]
      rfl
    · rw [List.append_nil]
      rfl
  | cons c cs =>
    obtain ⟨hcs, hcb⟩ := edge_ok_head c cs h
    obtain ⟨d, ds, htr⟩ : ∃ d ds, (c :: cs).reverse = d :: ds := by
      cases htr' : (c :: cs).reverse with
      | nil =>
        exfalso
        have h2 := congrArg List.reverse htr'
        rw [List.reverse_reverse, List.reverse_nil] at h2
        cases h2
      | cons d ds => exact ⟨d, ds, rfl⟩
    obtain ⟨hds, hdb⟩ := edge_ok_last (c :: cs) d ds h htr
    have hstrip : pyStripL (c :: cs) = c :: cs := by
      apply pyStripL_eq_self
      · intro c' cs' ht'
        cases ht'
        exact hcs
      · intro c' cs' ht'
        rw [htr] at ht'
        cases ht'
        exact hds
    have hljt : strip_lead_json (c :: cs) = c :: cs := strip_lead_json_ne c cs hcb
    have hl3t : strip_lead3 (c :: cs) = c :: cs := strip_lead3_ne c cs hcb
    have htr3t : strip_trail3 (c :: cs) = c :: cs := strip_trail3_ne _ d ds htr hdb
    have case0 : strip_fences (c :: cs) = c :: cs := by
      unfold strip_fences
      rw [hstrip, hljt, hl3t, htr3t, hstrip]
    refine ⟨case0, ?_, ?_, ?_⟩
    · have h1 : pyStripL (fence_json ++ c :: cs) = fence_json ++ c :: cs := by
        apply pyStripL_eq_self
        · intro c' cs' ht'
          rw [fence_json_eq, List.cons_append] at ht'
          cases ht'
          rfl
        · intro c' cs' ht'
          rw [List.reverse_append, htr, List.cons_append] at ht'
          cases ht'
          exact hds
      unfold strip_fences
      rw [h1, strip_lead_json_append, hl3t, htr3t, hstrip]
    · have h2 : pyStripL (c :: cs ++ fence3) = c :: cs ++ fence3 := by
        apply pyStripL_eq_self
        · intro c' cs' ht'
          rw [List.cons_append] at ht'
          cases ht'
          exact hcs
        · intro c' cs' ht'
          rw [List.reverse_append, fence3_rev, List.cons_append] at ht'
          cases ht'
          rfl
      unfold strip_fences
      have hlj2 : strip_lead_json (c :: cs ++ fence3) = c :: cs ++ fence3 := by
        rw [List.cons_append]
        rw [strip_lead_json_ne c (cs ++ fence3) hcb]
      have hl32 : strip_lead3 (c :: cs ++ fence3) = c :: cs ++ fence3 := by
        rw [List.cons_append]
        rw [strip_lead3_ne c (cs ++ fence3) hcb]
      rw [h2, hlj2, hl32, strip_trail3_append, hstrip]
    · have h3 : pyStripL (fence_json ++ c :: cs ++ fence3) =
          fence_json ++ c :: cs ++ fence3 := by
        apply pyStripL_eq_self
        · intro c' cs' ht'
          rw [List.append_assoc, fence_json_eq, List.cons_append] at ht'
          cases ht'
          rfl
        · intro c' cs' ht'
          rw [List.reverse_append, fence3_rev, List.cons_append] at ht'
          cases ht'
          rfl
      unfold strip_fences
      rw [h3, List.append_assoc, strip_lead_json_append]
      have hl32 : strip_lead3 (c :: cs ++ fence3) = c :: cs ++ fence3 := by
        rw [List.cons_append]
        rw [strip_lead3_ne c (cs ++ fence3) hcb]
      rw [hl32, strip_trail3_append, hstrip]

/-- Claim C7, counterexample.  A response carrying a fence token on one
side only — a leading three-backtick-json marker with no trailing
marker — does not pass through unchanged: the clean-up removes the
leading marker anyway, so characters beyond whitespace are removed. -/
theorem fence_stripping_counterexample :
    strip_fences ("```json\nabc".data) = "abc".data ∧
    pyStripL ("```json\nabc".data) = "```json\nabc".data ∧
    "abc".data ≠ "```json\nabc".data := by
  exact ⟨rfl, rfl, by decide⟩

/-- Claim C7, amended.  The clean-up strips a leading three-backtick-json
or three-backtick marker and a trailing three-backtick marker each
independently, whenever present after trimming — including when only
one side carries a fence.  Backticks strictly inside the content are
untouched: for a trimmed text whose first and last characters are
neither whitespace nor backticks, the unfenced text passes through
unchanged and each one-sided fence is stripped exactly. -/
theorem fence_stripping_amended (t : List Char) (h : edge_ok t = true) :
    strip_fences t = t ∧
    strip_fences (fence_json ++ t) = t ∧
    strip_fences (t ++ fence3) = t := by
  obtain ⟨h0, h1, h2, _⟩ := strip_fences_cases t h
  exact ⟨h0, h1, h2⟩

/-- Witness for the amended claim C7 at the concrete text `abc`. -/
theorem fence_stripping_amended_witness :
    edge_ok ("abc".data) = true ∧
    (strip_fences ("abc".data) = "abc".data ∧
    strip_fences (fence_json ++ "abc".data) = "abc".data ∧
    strip_fences ("abc".data ++ fence3) = "abc".data) := by
  exact ⟨rfl, fence_stripping_amended ("abc".data) rfl⟩

/-- Claim C8, counterexample.  For the response text `abc`-then-fence
(a text that itself ends in three backticks), stripping the once-wrapped
text differs from stripping the fence-free text: the wrapped variant
leaves the inner trailing backticks in place while the fence-free
variant consumes them. -/
theorem fence_idempotence_counterexample :
    "```jsonabc``````".data = fence_json ++ "abc```".data ++ fence3 ∧
    strip_fences ("```jsonabc``````".data) = "abc```".data ∧
    strip_fences ("abc```".data) = "abc".data ∧
    strip_fences ("```jsonabc``````".data) ≠ strip_fences ("abc```".data) := by
  exact ⟨rfl, rfl, rfl, by decide⟩

/-- Claim C8, amended.  For every response text that is trimmed and
whose first and last characters are neither whitespace nor backticks,
stripping the text wrapped once in three-backtick-json fences yields
output identical to stripping the fence-free text.  (Texts that
themselves end in a three-backtick run, or start with whitespace
followed by backticks, break the equality — see the counterexample.) -/
theorem fence_idempotence_amended (t : List Char) (h : edge_ok t = true) :
    strip_fences (fence_json ++ t ++ fence3) = strip_fences t := by
  obtain ⟨h0, _, _, h3⟩ := strip_fences_cases t h
  rw [h3, h0]

/-- Witness for the amended claim C8 at the concrete text `abc`. -/
theorem fence_idempotence_amended_witness :
    edge_ok ("abc".data) = true ∧
    strip_fences (fence_json ++ "abc".data ++ fence3) =
      strip_fences ("abc".data) := by
  exact ⟨rfl, fence_idempotence_amended ("abc".data) rfl⟩

end DocumentShredder
